import Mathlib

/-!
Verification development for the fingerprint capture-session core of the
repository (backend/app/services/secu_gen.py, backend/app/services/
fingerprint_session.py, backend/app/routes/ws_routes.py).

The Python code is shallowly embedded as pure Lean functions.  Hardware
responses (the SecuGen SDK calls) are abstracted into a `DeviceBehavior`
record: each field tells how the corresponding SDK call answers, and the
embedded functions reproduce, step by step, what the Python code does with
those answers (which events it sends over the websocket, which exceptions
it raises and catches, how the device state evolves).  Python exceptions
are modelled with `Except PyErr`; every `try/except` of the source appears
as an explicit `match` on that `Except`.
-/

/-- Python exceptions relevant to the scan workflow:
`timeoutErr` is `TimeoutError` (raised by `capture_image_ex` on SDK code 54),
`secuGen msg` is `SecuGenError(msg)`, `otherErr` any other exception.
`str(e)` of each is the carried message. -/
inductive PyErr where
  | timeoutErr
  | secuGen (msg : String)
  | otherErr (msg : String)
deriving DecidableEq

/-- The message `str(e)` carried by an exception.  `TimeoutError` is raised
in `capture_image_ex` as `TimeoutError("No finger detected within timeout
period")`. -/
def pyStr : PyErr → String
  | .timeoutErr => "No finger detected within timeout period"
  | .secuGen m => m
  | .otherErr m => m

/-- One websocket event, mirroring the JSON dicts the Python code sends.
Constructors carry exactly the structured fields of the corresponding dict
(plain fixed text messages are left implicit).  `captureSuccessScan` is the
`capture_success` dict built in `ScanSession.run_scan` (with `quality` and
`template_size` fields); `captureSuccessWs` is the `capture_success` dict
built in `ws_scan` after storing the template (message only). -/
inductive Event where
  | errorEv (msg : String)
  | deviceInit
  | deviceConfigured
  | deviceReady
  | captureAttemptEv (attempt maxAttempts : Nat)
  | timeoutEv (msg : String)
  | captureErrorEv (msg : String)
  | retryEv
  | imageCaptured
  | qualityCheck (score : Nat) (level : String)
  | warningEv (msg : String)
  | processing
  | captureSuccessScan (quality templateSize : Nat)
  | captureSuccessWs
  | captureFailed
  | doneEv
deriving DecidableEq

/-- The `type` string of the JSON dict for each event. -/
def Event.etype : Event → String
  | .errorEv _ => "error"
  | .deviceInit => "device_init"
  | .deviceConfigured => "device_configured"
  | .deviceReady => "device_ready"
  | .captureAttemptEv _ _ => "capture_attempt"
  | .timeoutEv _ => "timeout"
  | .captureErrorEv _ => "capture_error"
  | .retryEv => "retry"
  | .imageCaptured => "image_captured"
  | .qualityCheck _ _ => "quality_check"
  | .warningEv _ => "warning"
  | .processing => "processing"
  | .captureSuccessScan _ _ => "capture_success"
  | .captureSuccessWs => "capture_success"
  | .captureFailed => "capture_failed"
  | .doneEv => "done"

/-- Terminal event classes per the spec event table: `capture_success`,
`capture_failed` and `error` (the `done` marker is explicitly excepted). -/
def isTerminalType (e : Event) : Bool :=
  e.etype == "capture_success" || e.etype == "capture_failed" || e.etype == "error"

/-- How one `SGFPM_GetImageEx` call (`capture_image_ex`) answers:
SDK code 0 (image filled in), 54 (timeout), 57 (no valid fingerprint),
or any other failing code/message. -/
inductive CaptureOutcome where
  | okc
  | timeoutc
  | wrongImage
  | deviceErr (msg : String)
deriving DecidableEq

/-- How `SGFPM_GetImageQuality` answers inside `get_image_quality`:
code 0 with a score, a nonzero code, or the call raising a Python
exception. -/
inductive QualityOutcome where
  | okq (q : Nat)
  | sdkErr
  | raisesExc
deriving DecidableEq

/-- How `SGFPM_CreateTemplate` answers inside `create_template`: code 0
with the resulting template bytes, code 101 (inadequate minutiae), or any
other failing code/message. -/
inductive TemplateOutcome where
  | okt (tpl : List Nat)
  | inadequateMinutiae
  | otherTplErr (msg : String)
deriving DecidableEq

/-- Abstraction of the hardware/SDK responses during one session.  Each
field fixes the answer of one SDK call; `capture` is indexed by the attempt
number since successive capture attempts may answer differently.
`closeRaises`/`terminateRaises`/`setLedRaises` make the corresponding raw
SDK call raise a Python exception (which the source catches locally). -/
structure DeviceBehavior where
  sdkLoadOk : Bool := true
  createOk : Bool := true
  initOk : Bool := true
  openOk : Bool := true
  infoOk : Bool := true
  infoWidth : Nat := 2
  infoHeight : Nat := 3
  brightnessOk : Bool := true
  formatOk : Bool := true
  maxTemplateSizeV : Nat := 400
  capture : Nat → CaptureOutcome := fun _ => .okc
  qualityOutcome : QualityOutcome := .okq 75
  templateOutcome : TemplateOutcome := .okt [1, 2, 3, 4]
  closeRaises : Bool := false
  terminateRaises : Bool := false
  setLedRaises : Bool := false

/-- State of one `SecuGenDevice` wrapper object.  `hFPM` is whether the
SGFPM handle is non-null, `opened` whether `SGFPM_OpenDevice` succeeded and
no successful `SGFPM_CloseDevice` came after, `closeCalls`/`termCalls`
count actual invocations of the raw SDK close/terminate calls. -/
structure DevState where
  hFPM : Bool := false
  opened : Bool := false
  led : Bool := false
  brightness : Option Nat := none
  width : Nat := 0
  height : Nat := 0
  maxTemplateSize : Nat := 0
  closeCalls : Nat := 0
  termCalls : Nat := 0
deriving DecidableEq

/-- `SecuGenDevice.create`: `SGFPM_Create` fills the handle, any failing
code makes `_check_error` raise `SecuGenError`. -/
def devCreate (b : DeviceBehavior) (d : DevState) : Except PyErr DevState :=
  if b.createOk then .ok { d with hFPM := true }
  else .error (.secuGen "SGFPM_Create failed: SGFPM object creation failed (Code: 1)")

/-- `SecuGenDevice.init`: raises via `_check_error` on a failing code. -/
def devInit (b : DeviceBehavior) (d : DevState) : Except PyErr DevState :=
  if b.initOk then .ok d
  else .error (.secuGen "SGFPM_Init failed: Device not found (Code: 55)")

/-- `SecuGenDevice.open`: `SGFPM_OpenDevice` then `_load_device_info`,
which stores the reported image dimensions, falling back to 300x400 when
`SGFPM_GetDeviceInfo` fails. -/
def devOpen (b : DeviceBehavior) (d : DevState) : Except PyErr DevState :=
  if b.openOk then
    let d1 := { d with opened := true }
    if b.infoOk then .ok { d1 with width := b.infoWidth, height := b.infoHeight }
    else .ok { d1 with width := 300, height := 400 }
  else .error (.secuGen "SGFPM_OpenDevice failed: Device not found (Code: 55)")

/-- `SecuGenDevice.set_brightness`: a failing SDK code is only logged,
never raised; on success the brightness is stored by the hardware. -/
def set_brightness (b : DeviceBehavior) (d : DevState) (v : Nat) : DevState :=
  if b.brightnessOk then { d with brightness := some v } else d

/-- `SecuGenDevice.set_template_format`: `SGFPM_SetTemplateFormat` then
`SGFPM_GetMaxTemplateSize`; a failing code in either raises via
`_check_error` and then `self.max_template_size` keeps its previous value
(0 on a fresh device).  `formatOk` covers both calls succeeding. -/
def set_template_format (b : DeviceBehavior) (d : DevState) : Except PyErr DevState :=
  if b.formatOk then .ok { d with maxTemplateSize := b.maxTemplateSizeV }
  else .error (.secuGen "SGFPM_SetTemplateFormat failed: Function call failed (Code: 2)")

/-- `SecuGenDevice.blink_led times interval`: alternates the LED on/off
`times` times; its net effect on the recorded state is an LED left off. -/
def blink_led (d : DevState) : DevState :=
  { d with led := false }

/-- `SecuGenDevice.capture_image_ex`: code 0 returns the raw buffer of
`self.width * self.height` bytes, code 54 raises `TimeoutError`, code 57
raises `SecuGenError("No valid fingerprint detected")`, any other failing
code raises via `_check_error` (so the trailing `return None` in the
source is unreachable). -/
def capture_image_ex (b : DeviceBehavior) (d : DevState) (attempt : Nat) :
    Except PyErr (List Nat) :=
  match b.capture attempt with
  | .okc => .ok (List.replicate (d.width * d.height) 0)
  | .timeoutc => .error .timeoutErr
  | .wrongImage => .error (.secuGen "No valid fingerprint detected")
  | .deviceErr msg => .error (.secuGen msg)

/-- `SecuGenDevice.get_image_quality`: code 0 returns the reported score,
any nonzero code is logged and 0 is returned (no exception); the raw call
itself may raise. -/
def get_image_quality (b : DeviceBehavior) : Except PyErr Nat :=
  match b.qualityOutcome with
  | .okq q => .ok q
  | .sdkErr => .ok 0
  | .raisesExc => .error (.otherErr "quality call failed")

/-- `SecuGenDevice.create_template`: raises if no template format was set
(`max_template_size == 0`); otherwise code 0 yields the template bytes,
code 101 raises the inadequate-minutiae `SecuGenError`, any other failing
code raises via `_check_error`. -/
def create_template (b : DeviceBehavior) (d : DevState) : Except PyErr (List Nat) :=
  if d.maxTemplateSize == 0 then
    .error (.secuGen "Template format not set. Call set_template_format() first.")
  else
    match b.templateOutcome with
    | .okt tpl => .ok tpl
    | .inadequateMinutiae =>
        .error (.secuGen "Inadequate number of minutiae - try again with better finger placement")
    | .otherTplErr msg => .error (.secuGen msg)

/-- `SecuGenDevice.close`: returns immediately if the handle is null;
otherwise invokes `SGFPM_CloseDevice`, logging (never raising) on a
failing code or an exception from the raw call. -/
def dev_close (b : DeviceBehavior) (d : DevState) : DevState :=
  if d.hFPM then
    let d1 := { d with closeCalls := d.closeCalls + 1 }
    if b.closeRaises then d1 else { d1 with opened := false }
  else d

/-- `SecuGenDevice.terminate`: returns immediately if the handle is null;
otherwise invokes `SGFPM_Terminate` (exceptions caught and logged) and in
a `finally` always resets the handle to null. -/
def dev_terminate (b : DeviceBehavior) (d : DevState) : DevState :=
  if d.hFPM then { d with termCalls := d.termCalls + 1, hFPM := false }
  else d

/-- `ScanSession._stop_led`: cancels the blink task if any, then calls
`set_led(False)`; every exception is caught inside, so a raising
`SGFPM_SetLedOn` leaves the recorded LED state unchanged. -/
def stop_led (b : DeviceBehavior) (d : DevState) : DevState :=
  if b.setLedRaises then d else { d with led := false }

/-- `ScanSession._cleanup_device`: if a device object exists, stop the
LED, close, then terminate; every step catches its own exceptions and the
whole body is additionally wrapped in `try/except`, so cleanup is total. -/
def cleanup_device (b : DeviceBehavior) : Option DevState → Option DevState
  | none => none
  | some d => some (dev_terminate b (dev_close b (stop_led b d)))

/-- One `ScanSession` object.  `expiresAt` is an absolute timestamp in
seconds; `maxAttemptsField` is the (unused by the retry loop) attribute
`self._max_attempts`. -/
structure Sess where
  identityNumber : String := ""
  fullName : String := ""
  expiresAt : Nat := 600
  active : Bool := true
  device : Option DevState := none
  captureAttempts : Nat := 0
  maxAttemptsField : Nat := 3
deriving DecidableEq

/-- `ScanSession.__init__` at clock time `nowT`: note the Python
`timeout_seconds or settings.SCAN_SESSION_TIMEOUT`, under which an
explicit 0 (falsy) also selects the default 600. -/
def mkScanSession (identityNumber fullName : String) (timeoutSeconds : Option Nat) (nowT : Nat) : Sess :=
  let t := match timeoutSeconds with
    | none => 600
    | some 0 => 600
    | some k => k
  { identityNumber := identityNumber, fullName := fullName,
    expiresAt := nowT + t, active := true, device := none,
    captureAttempts := 0, maxAttemptsField := 3 }

/-- `ScanSession.is_expired`: `datetime.utcnow() > self.expires_at`
(strict comparison). -/
def is_expired (s : Sess) (nowT : Nat) : Bool :=
  s.expiresAt < nowT

/-- `ScanSession.cancel`: clears `active` and runs device cleanup. -/
def sessionCancel (b : DeviceBehavior) (s : Sess) : Sess :=
  { s with active := false, device := cleanup_device b s.device }

/-- `ScanSession._configure_device`: set brightness to 50 (never raises),
then set the template format; a raise anywhere in the body is caught and
only logged, in which case no `device_configured` event is sent. -/
def configure_device (b : DeviceBehavior) (d : DevState) : List Event × DevState :=
  let d1 := set_brightness b d 50
  match set_template_format b d1 with
  | .ok d2 => ([Event.deviceConfigured], d2)
  | .error _ => ([], d1)

/-- Quality level labels of `ScanSession._verify_image_quality`. -/
def qualityLevel (q : Nat) : String :=
  if q ≥ 70 then "EXCELLENT"
  else if q ≥ 50 then "GOOD"
  else if q ≥ 40 then "ACCEPTABLE"
  else "LOW"

/-- `ScanSession._verify_image_quality`: on a successful quality call emit
the `quality_check` event and return the score; if anything in the body
raises, catch it and return the default score 50 (no event sent). -/
def verify_image_quality (b : DeviceBehavior) : List Event × Nat :=
  match get_image_quality b with
  | .ok q => ([Event.qualityCheck q (qualityLevel q)], q)
  | .error _ => ([], 50)

/-- One failed attempt's trailing events in `_capture_image_with_retry`:
a backoff sleep followed by the `retry` event, except after the last
attempt. -/
def retryTail (attempt maxAttempts : Nat) : List Event :=
  if attempt < maxAttempts then [Event.retryEv] else []

/-- The `for attempt in range(1, max_attempts + 1)` loop of
`ScanSession._capture_image_with_retry`, recursing on the number of
remaining iterations.  Returns the emitted events, the captured buffer (or
`none` after exhaustion), and the final value of `self._capture_attempts`
(`cnt` is its value on entry to the current iteration). -/
def captureRetryAux (b : DeviceBehavior) (d : DevState) (w h maxAttempts : Nat) :
    Nat → Nat → Nat → List Event × Option (List Nat) × Nat
  | 0, _, cnt => ([], none, cnt)
  | remaining + 1, attempt, _ =>
    let cnt := attempt
    let evA := Event.captureAttemptEv attempt maxAttempts
    match capture_image_ex b d attempt with
    | .ok buf =>
        if buf.length == w * h then
          ([evA, Event.imageCaptured], some buf, cnt)
        else
          let (evs, res, c) := captureRetryAux b d w h maxAttempts remaining (attempt + 1) cnt
          (evA :: (retryTail attempt maxAttempts ++ evs), res, c)
    | .error .timeoutErr =>
        let evT := Event.timeoutEv ("Timeout on attempt " ++ toString attempt ++ ". Please try again.")
        let (evs, res, c) := captureRetryAux b d w h maxAttempts remaining (attempt + 1) cnt
        (evA :: evT :: (retryTail attempt maxAttempts ++ evs), res, c)
    | .error e =>
        let evE := Event.captureErrorEv ("Capture failed: " ++ pyStr e)
        let (evs, res, c) := captureRetryAux b d w h maxAttempts remaining (attempt + 1) cnt
        (evA :: evE :: (retryTail attempt maxAttempts ++ evs), res, c)

/-- `ScanSession._capture_image_with_retry` with its default
`max_attempts=3` (the value used by `run_scan`). -/
def capture_image_with_retry (b : DeviceBehavior) (d : DevState) (w h : Nat) :
    List Event × Option (List Nat) × Nat :=
  captureRetryAux b d w h 3 3 1 0

/-- Result of the `try` block of `ScanSession.run_scan` (before the
`finally` cleanup): emitted events, returned template, the device object
`self.device` if its assignment ran, and the final `self._capture_attempts`
if the retry loop ran (`none` when an exception fired before it). -/
structure ScanTryResult where
  events : List Event
  template : Option (List Nat)
  dev : Option DevState
  attempts : Option Nat
deriving DecidableEq

/-- The uniform `except Exception` handler of `run_scan`: send an `error`
event with the exception text and return `None`. -/
def scanErrEv (e : PyErr) : Event :=
  Event.errorEv ("Scan error: " ++ pyStr e)

/-- Steps 2-7 of the `try` block of `ScanSession.run_scan`, starting from
an opened device `d3`: configure, read the image dimensions, blink the LED
twice and announce readiness, run the capture-retry loop (an exhausted loop
sends the fixed `error` event and returns `None` directly), verify quality
(warning below 40), announce `processing`, then create the template; an
exception from `create_template` is converted by the `except` handler into
an `error` event and a `None` result. -/
def scanAfterOpen (b : DeviceBehavior) (d3 : DevState) : ScanTryResult :=
  let cfg := configure_device b d3
  let d4 := cfg.2
  let d5 := blink_led d4
  let pre := cfg.1 ++ [Event.deviceReady]
  let cap := capture_image_with_retry b d5 d4.width d4.height
  match cap.2.1 with
  | none =>
      ⟨pre ++ cap.1 ++
         [Event.errorEv "Failed to capture fingerprint after multiple attempts."],
       none, some d5, some cap.2.2⟩
  | some _ =>
      let vq := verify_image_quality b
      let q := vq.2
      let warnEvs :=
        if q < 40 then
          [Event.warningEv ("Image quality low (" ++ toString q ++
             "). Please try again with a cleaner, drier finger.")]
        else []
      let evs2 := pre ++ cap.1 ++ vq.1 ++ warnEvs ++ [Event.processing]
      match create_template b d5 with
      | .error e => ⟨evs2 ++ [scanErrEv e], none, some d5, some cap.2.2⟩
      | .ok tpl =>
          ⟨evs2 ++ [Event.captureSuccessScan q tpl.length], some tpl, some d5, some cap.2.2⟩

/-- The `try` block of `ScanSession.run_scan`: build the device object
(`SecuGenDevice()` raises if the SDK DLLs cannot load, leaving
`self.device` unassigned), create/init/open it, then continue with
`scanAfterOpen`; an exception in the device bring-up is converted by the
handler into an `error` event and a `None` result. -/
def runScanTry (b : DeviceBehavior) : ScanTryResult :=
  if b.sdkLoadOk then
    let d0 : DevState := {}
    match devCreate b d0 with
    | .error e => ⟨[scanErrEv e], none, some d0, none⟩
    | .ok d1 =>
      match devInit b d1 with
      | .error e => ⟨[scanErrEv e], none, some d1, none⟩
      | .ok d2 =>
        match devOpen b d2 with
        | .error e => ⟨[scanErrEv e], none, some d2, none⟩
        | .ok d3 => scanAfterOpen b d3
  else
    ⟨[scanErrEv (.secuGen "Failed to load SDK: SDK DLL not found")], none, none, none⟩

/-- `ScanSession.run_scan`: run the `try` block, then in the `finally`
always run `_cleanup_device` on `self.device` (which keeps its old value
if the constructor raised before the assignment). -/
def run_scan (b : DeviceBehavior) (s : Sess) : List Event × Option (List Nat) × Sess :=
  let r := runScanTry b
  let devAfter : Option DevState :=
    match r.dev with
    | some d => some d
    | none => s.device
  let devFinal := cleanup_device b devAfter
  (r.events, r.template,
   { s with device := devFinal,
            captureAttempts := r.attempts.getD s.captureAttempts })

/-- Result of the `ws_scan` websocket handler: the events sent over the
socket, the close codes of every `ws.close` call performed, and the final
session object (when one was created). -/
structure WsResult where
  events : List Event
  closes : List Nat
  sess : Option Sess
deriving DecidableEq

/-- The `ws_scan` route of `ws_routes.py` on the executions where the
scan task completes first in the `asyncio.wait` race (the
disconnect-first branch is modelled separately by `RaceStep`):
validate the identity, create the session, announce `device_init`, run the
scan, then either report `capture_failed` (socket left open), report a
storage `error` (socket left open), or send `capture_success` and `done`
and close normally. -/
def ws_scan (studentExists : Bool) (storeOk : Bool) (b : DeviceBehavior) (s : Sess) : WsResult :=
  if studentExists then
    let r := run_scan b s
    let evs0 := Event.deviceInit :: r.1
    match r.2.1 with
    | none =>
        ⟨evs0 ++ [Event.captureFailed], [], some r.2.2⟩
    | some _ =>
        if storeOk then
          ⟨evs0 ++ [Event.captureSuccessWs, Event.doneEv], [1000], some r.2.2⟩
        else
          ⟨evs0 ++ [Event.errorEv "Failed to store fingerprint"], [], some r.2.2⟩
  else
    ⟨[Event.errorEv "No student found for CNIC"], [4000], none⟩

/-- Program counter of the orchestrator coroutine `ws_scan` inside its
disconnect-first branch (lines 72-81): `asyncio.wait` has just returned
with the disconnect watcher in `done`; the orchestrator then cancels the
scan task, closes the websocket with code 1001, and returns. -/
inductive OrchLoc where
  | atBranch
  | afterCancel
  | afterClose
  | returned
deriving DecidableEq

/-- Program counter of the scan task: still running the workflow,
cancellation requested (the `CancelledError` will fire at its next
suspension point and run the `finally` cleanup), or finished. -/
inductive ScanLoc where
  | running
  | cancelRequested
  | finishedScan
deriving DecidableEq

/-- Joint configuration of the orchestrator and the scan task in the
disconnect-first race: program counters, whether the device is still
open, and the close codes issued so far on the channel. -/
structure RaceState where
  orch : OrchLoc
  scan : ScanLoc
  deviceOpen : Bool
  closes : List Nat
deriving DecidableEq

/-- Interleaving semantics of the disconnect-first branch.  The
orchestrator steps: request cancellation of the scan task if it is not
done yet (`if not scan_task.done(): scan_task.cancel()`), close the
channel with code 1001, return — without awaiting the cancelled scan
task.  The scan task steps: it may finish on its own, or, once
cancellation is requested, the `CancelledError` is delivered at its next
suspension point and the `finally` of `run_scan` runs `_cleanup_device`,
closing the device. -/
inductive RaceStep : RaceState → RaceState → Prop where
  | cancelRunning (d : Bool) (c : List Nat) :
      RaceStep ⟨.atBranch, .running, d, c⟩ ⟨.afterCancel, .cancelRequested, d, c⟩
  | cancelDone (d : Bool) (c : List Nat) :
      RaceStep ⟨.atBranch, .finishedScan, d, c⟩ ⟨.afterCancel, .finishedScan, d, c⟩
  | closeChannel (sc : ScanLoc) (d : Bool) (c : List Nat) :
      RaceStep ⟨.afterCancel, sc, d, c⟩ ⟨.afterClose, sc, d, c ++ [1001]⟩
  | orchReturn (sc : ScanLoc) (d : Bool) (c : List Nat) :
      RaceStep ⟨.afterClose, sc, d, c⟩ ⟨.returned, sc, d, c⟩
  | scanFinish (o : OrchLoc) (d : Bool) (c : List Nat) :
      RaceStep ⟨o, .running, d, c⟩ ⟨o, .finishedScan, false, c⟩
  | scanCancelled (o : OrchLoc) (d : Bool) (c : List Nat) :
      RaceStep ⟨o, .cancelRequested, d, c⟩ ⟨o, .finishedScan, false, c⟩

/-- Reachability in the disconnect-first race. -/
def RaceReaches : RaceState → RaceState → Prop :=
  Relation.ReflTransGen RaceStep

/-- Initial configuration of the disconnect-first branch: the scan task is
mid-workflow with the device open, nothing closed yet. -/
def raceInit : RaceState :=
  ⟨.atBranch, .running, true, []⟩

/-- A list of events containing no terminal-class event. -/
def noTerminal (l : List Event) : Prop :=
  ∀ e ∈ l, isTerminalType e = false

lemma noTerminal_nil : noTerminal [] := by
  intro e he
  cases he

lemma noTerminal_append {l1 l2 : List Event} (h1 : noTerminal l1) (h2 : noTerminal l2) :
    noTerminal (l1 ++ l2) := by
  intro e he
  rcases List.mem_append.mp he with h | h
  · exact h1 e h
  · exact h2 e h

lemma noTerminal_cons {e : Event} {l : List Event} (he : isTerminalType e = false)
    (hl : noTerminal l) : noTerminal (e :: l) := by
  intro x hx
  rcases List.mem_cons.mp hx with h | h
  · rw [h]; exact he
  · exact hl x h

lemma noTerminal_retryTail (a m : Nat) : noTerminal (retryTail a m) := by
  unfold retryTail
  split
  · intro e he
    simp only [List.mem_singleton] at he
    subst he
    rfl
  · exact noTerminal_nil

/-- The capture-retry loop emits only attempt-level events: none of them
is of a terminal class. -/
lemma captureRetryAux_noTerminal (b : DeviceBehavior) (d : DevState) (w h m : Nat) :
    ∀ rem att cnt, noTerminal (captureRetryAux b d w h m rem att cnt).1 := by
  intro rem
  induction rem with
  | zero => intro att cnt; exact noTerminal_nil
  | succ k ih =>
    intro att cnt
    unfold captureRetryAux capture_image_ex
    cases hc : b.capture att with
    | okc =>
      simp only
      split
      · exact noTerminal_cons rfl (noTerminal_cons rfl noTerminal_nil)
      · exact noTerminal_cons rfl (noTerminal_append (noTerminal_retryTail _ _) (ih _ _))
    | timeoutc =>
      exact noTerminal_cons rfl (noTerminal_cons rfl
        (noTerminal_append (noTerminal_retryTail _ _) (ih _ _)))
    | wrongImage =>
      exact noTerminal_cons rfl (noTerminal_cons rfl
        (noTerminal_append (noTerminal_retryTail _ _) (ih _ _)))
    | deviceErr msg =>
      exact noTerminal_cons rfl (noTerminal_cons rfl
        (noTerminal_append (noTerminal_retryTail _ _) (ih _ _)))

/-- The final `_capture_attempts` value after the retry loop is bounded by
any `K` dominating both the entry count and the attempt numbers the loop
can reach. -/
lemma captureRetryAux_cnt_le (b : DeviceBehavior) (d : DevState) (w h m K : Nat) :
    ∀ rem att cnt, cnt ≤ K → att + rem ≤ K + 1 →
      (captureRetryAux b d w h m rem att cnt).2.2 ≤ K := by
  intro rem
  induction rem with
  | zero => intro att cnt hc _; exact hc
  | succ k ih =>
    intro att cnt _ hsum
    have hattK : att ≤ K := by omega
    have hrec : att + 1 + k ≤ K + 1 := by omega
    unfold captureRetryAux capture_image_ex
    cases hcap : b.capture att with
    | okc =>
      simp only
      split
      · exact hattK
      · exact ih (att + 1) att hattK hrec
    | timeoutc => exact ih (att + 1) att hattK hrec
    | wrongImage => exact ih (att + 1) att hattK hrec
    | deviceErr msg => exact ih (att + 1) att hattK hrec

/-- If no attempt the loop can still make answers with a usable image, the
loop returns `none`. -/
lemma captureRetryAux_none (b : DeviceBehavior) (d : DevState) (w h m : Nat) :
    ∀ rem att cnt, (∀ a, att ≤ a → a < att + rem → b.capture a ≠ .okc) →
      (captureRetryAux b d w h m rem att cnt).2.1 = none := by
  intro rem
  induction rem with
  | zero => intro att cnt _; rfl
  | succ k ih =>
    intro att cnt hfail
    have hne : b.capture att ≠ .okc := hfail att (Nat.le_refl att) (by omega)
    have hrec : ∀ a, att + 1 ≤ a → a < att + 1 + k → b.capture a ≠ .okc := by
      intro a h1 h2
      exact hfail a (by omega) (by omega)
    unfold captureRetryAux capture_image_ex
    cases hcap : b.capture att with
    | okc => exact absurd hcap hne
    | timeoutc => exact ih (att + 1) att hrec
    | wrongImage => exact ih (att + 1) att hrec
    | deviceErr msg => exact ih (att + 1) att hrec

/-- Whether an event is a `capture_attempt` event, i.e. marks one
image-capture attempt being made. -/
def isAttemptEv (e : Event) : Bool :=
  e.etype == "capture_attempt"

@[simp] lemma isAttemptEv_attempt (a m : Nat) :
    isAttemptEv (.captureAttemptEv a m) = true := rfl

@[simp] lemma isAttemptEv_timeout (msg : String) :
    isAttemptEv (.timeoutEv msg) = false := rfl

@[simp] lemma isAttemptEv_captureError (msg : String) :
    isAttemptEv (.captureErrorEv msg) = false := rfl

@[simp] lemma isAttemptEv_retry : isAttemptEv .retryEv = false := rfl

@[simp] lemma isAttemptEv_imageCaptured : isAttemptEv .imageCaptured = false := rfl

lemma countAttempts_retryTail (a m : Nat) :
    (retryTail a m).countP isAttemptEv = 0 := by
  unfold retryTail
  split <;> simp

/-- The number of `capture_attempt` events the loop emits is bounded by the
number of remaining iterations. -/
lemma captureRetryAux_attempts_le (b : DeviceBehavior) (d : DevState) (w h m : Nat) :
    ∀ rem att cnt,
      ((captureRetryAux b d w h m rem att cnt).1.countP isAttemptEv) ≤ rem := by
  intro rem
  induction rem with
  | zero => intro att cnt; simp [captureRetryAux]
  | succ k ih =>
    intro att cnt
    have hrec := ih (att + 1) att
    cases hcap : b.capture att with
    | okc =>
      simp only [captureRetryAux, capture_image_ex, hcap]
      split
      · simp
      · simp [List.countP_cons, List.countP_append, countAttempts_retryTail]
        omega
    | timeoutc =>
      simp only [captureRetryAux, capture_image_ex, hcap]
      simp [List.countP_cons, List.countP_append, countAttempts_retryTail]
      omega
    | wrongImage =>
      simp only [captureRetryAux, capture_image_ex, hcap]
      simp [List.countP_cons, List.countP_append, countAttempts_retryTail]
      omega
    | deviceErr msg =>
      simp only [captureRetryAux, capture_image_ex, hcap]
      simp [List.countP_cons, List.countP_append, countAttempts_retryTail]
      omega

lemma noTerminal_configure (b : DeviceBehavior) (d : DevState) :
    noTerminal (configure_device b d).1 := by
  unfold configure_device
  cases h : set_template_format b (set_brightness b d 50) with
  | ok d2 =>
      intro e he
      simp only [h, List.mem_singleton] at he
      subst he
      rfl
  | error ex => simp only [h]; exact noTerminal_nil

lemma noTerminal_verify (b : DeviceBehavior) :
    noTerminal (verify_image_quality b).1 := by
  unfold verify_image_quality
  cases h : get_image_quality b with
  | ok q =>
      intro e he
      simp only [h, List.mem_singleton] at he
      subst he
      rfl
  | error ex => simp only [h]; exact noTerminal_nil

/-- Shape invariant of the `try` body of `run_scan`: it emits exactly one
terminal-class event, as its final event: an `error` event when the
returned template is `None`, and the workflow-level `capture_success`
event (carrying the quality score and the template size) when a template
is returned. -/
def oneTerminalShape (r : ScanTryResult) : Prop :=
  ∃ pre last, r.events = pre ++ [last] ∧ noTerminal pre ∧
    isTerminalType last = true ∧
    ((r.template = none ∧ ∃ m, last = Event.errorEv m) ∨
     (∃ t q, r.template = some t ∧ last = Event.captureSuccessScan q t.length))

lemma scanAfterOpen_shape (b : DeviceBehavior) (d3 : DevState) :
    oneTerminalShape (scanAfterOpen b d3) := by
  simp only [scanAfterOpen, oneTerminalShape]
  set cfg := configure_device b d3 with hcfg
  set d5 := blink_led cfg.2 with hd5
  set cap := capture_image_with_retry b d5 cfg.2.width cfg.2.height with hcap
  have hpre : noTerminal (cfg.1 ++ [Event.deviceReady] ++ cap.1) := by
    refine noTerminal_append (noTerminal_append (noTerminal_configure b d3) ?_) ?_
    · exact noTerminal_cons rfl noTerminal_nil
    · exact captureRetryAux_noTerminal b d5 cfg.2.width cfg.2.height 3 3 1 0
  cases himg : cap.2.1 with
  | none =>
      exact ⟨cfg.1 ++ [Event.deviceReady] ++ cap.1,
        Event.errorEv "Failed to capture fingerprint after multiple attempts.",
        rfl, hpre, rfl, .inl ⟨rfl, _, rfl⟩⟩
  | some img =>
    set vq := verify_image_quality b with hvq
    have hwarn : noTerminal (if vq.2 < 40 then
        [Event.warningEv ("Image quality low (" ++ toString vq.2 ++
           "). Please try again with a cleaner, drier finger.")] else []) := by
      split
      · exact noTerminal_cons rfl noTerminal_nil
      · exact noTerminal_nil
    have hpre2 : noTerminal (cfg.1 ++ [Event.deviceReady] ++ cap.1 ++ vq.1 ++
        (if vq.2 < 40 then
          [Event.warningEv ("Image quality low (" ++ toString vq.2 ++
             "). Please try again with a cleaner, drier finger.")] else []) ++
        [Event.processing]) := by
      refine noTerminal_append (noTerminal_append (noTerminal_append hpre
        (noTerminal_verify b)) hwarn) ?_
      exact noTerminal_cons rfl noTerminal_nil
    cases ht : create_template b d5 with
    | error e =>
        exact ⟨_, scanErrEv e, rfl, hpre2, rfl, .inl ⟨rfl, _, rfl⟩⟩
    | ok tpl =>
        exact ⟨_, Event.captureSuccessScan vq.2 tpl.length, rfl, hpre2, rfl,
          .inr ⟨tpl, vq.2, rfl, rfl⟩⟩

/-- The `try` body of `run_scan` has the one-terminal shape for every
device behavior. -/
lemma runScanTry_shape (b : DeviceBehavior) : oneTerminalShape (runScanTry b) := by
  unfold runScanTry
  by_cases hs : b.sdkLoadOk
  · simp only [hs, if_true]
    by_cases hcr : b.createOk
    · simp only [devCreate, hcr, if_true]
      by_cases hin : b.initOk
      · simp only [devInit, hin, if_true]
        by_cases hop : b.openOk
        · simp only [devOpen, hop, if_true]
          by_cases hinfo : b.infoOk
          · simp only [hinfo, if_true]
            exact scanAfterOpen_shape b _
          · simp only [hinfo, if_false]
            exact scanAfterOpen_shape b _
        · simp only [devOpen, hop, if_false]
          exact ⟨[], scanErrEv _, rfl, noTerminal_nil, rfl, .inl ⟨rfl, _, rfl⟩⟩
      · simp only [devInit, hin, if_false]
        exact ⟨[], scanErrEv _, rfl, noTerminal_nil, rfl, .inl ⟨rfl, _, rfl⟩⟩
    · simp only [devCreate, hcr, if_false]
      exact ⟨[], scanErrEv _, rfl, noTerminal_nil, rfl, .inl ⟨rfl, _, rfl⟩⟩
  · simp only [hs, if_false]
    exact ⟨[], scanErrEv _, rfl, noTerminal_nil, rfl, .inl ⟨rfl, _, rfl⟩⟩

@[simp] lemma isTerminalType_errorEv (m : String) :
    isTerminalType (.errorEv m) = true := rfl

@[simp] lemma isTerminalType_deviceInit : isTerminalType .deviceInit = false := rfl

@[simp] lemma isTerminalType_captureFailed : isTerminalType .captureFailed = true := rfl

@[simp] lemma isTerminalType_captureSuccessWs :
    isTerminalType .captureSuccessWs = true := rfl

@[simp] lemma isTerminalType_captureSuccessScan (q t : Nat) :
    isTerminalType (.captureSuccessScan q t) = true := rfl

@[simp] lemma isTerminalType_doneEv : isTerminalType .doneEv = false := rfl

lemma noTerminal_filter_nil {l : List Event} (h : noTerminal l) :
    l.filter isTerminalType = [] := by
  refine List.filter_eq_nil_iff.2 ?_
  intro a ha
  simp [h a ha]

/-- A device on which every capture attempt times out. -/
def bAllTimeout : DeviceBehavior := { capture := fun _ => .timeoutc }

/-- The fully healthy device behavior (all defaults). -/
def bGood : DeviceBehavior := {}

/-- A demonstration session (identity and name are arbitrary; created at
clock time 0 with the default timeout, so `expiresAt = 600`). -/
def sessDemo : Sess := mkScanSession "3520212345671" "Test Student" none 0

lemma run_scan_events (b : DeviceBehavior) (s : Sess) :
    (run_scan b s).1 = (runScanTry b).events := rfl

lemma run_scan_template (b : DeviceBehavior) (s : Sess) :
    (run_scan b s).2.1 = (runScanTry b).template := rfl

/-- C1 counterexample.  On the all-attempts-time-out behavior the completed
session emits TWO terminal-class events — the workflow's `error` event and
the route's `capture_failed` event — contradicting both "exactly one
terminal event" and "a session whose capture fails does not emit both an
error event and a capture_failed event"; and on the fully healthy behavior
the session emits `capture_success` twice (once from the workflow with the
quality fields, once from the route after saving), contradicting
"capture_success exactly once". -/
theorem claimC1_counterexample :
    ((ws_scan true true bAllTimeout sessDemo).events.filter isTerminalType).length = 2 ∧
    (ws_scan true true bAllTimeout sessDemo).events.contains
      (Event.errorEv "Failed to capture fingerprint after multiple attempts.") = true ∧
    (ws_scan true true bAllTimeout sessDemo).events.contains Event.captureFailed = true ∧
    ((ws_scan true true bGood sessDemo).events.countP
      (fun e => e.etype == "capture_success")) = 2 := by
  exact ⟨rfl, rfl, rfl, rfl⟩

/-- C1 (amended): for every completed session (identity found, scan runs
to completion rather than being cancelled), the event stream contains
exactly TWO terminal-class events rather than one — the workflow's
terminal event somewhere in the prefix, then the route's terminal event —
and no event of any kind follows the route's terminal event except the
explicit `done` marker after a successful save. -/
theorem claimC1_amended (storeOk : Bool) (b : DeviceBehavior) (s : Sess) :
    ∃ pre t tail,
      (ws_scan true storeOk b s).events = pre ++ t :: tail ∧
      isTerminalType t = true ∧
      (tail = [] ∨ tail = [Event.doneEv]) ∧
      (pre.filter isTerminalType).length = 1 := by
  obtain ⟨pre0, last, hev, hpre0, hterm, _⟩ := runScanTry_shape b
  have hfil : ((Event.deviceInit :: (pre0 ++ [last])).filter isTerminalType).length = 1 := by
    simp [List.filter_cons, List.filter_append, noTerminal_filter_nil hpre0, hterm]
  simp only [ws_scan, if_true]
  cases htpl : (run_scan b s).2.1 with
  | none =>
      refine ⟨Event.deviceInit :: (pre0 ++ [last]), Event.captureFailed, [],
        ?_, rfl, .inl rfl, hfil⟩
      show Event.deviceInit :: (run_scan b s).1 ++ [Event.captureFailed] = _
      rw [run_scan_events, hev]
  | some tq =>
      cases storeOk with
      | true =>
          simp only [if_true]
          refine ⟨Event.deviceInit :: (pre0 ++ [last]), Event.captureSuccessWs,
            [Event.doneEv], ?_, rfl, .inr rfl, hfil⟩
          show Event.deviceInit :: (run_scan b s).1 ++
            [Event.captureSuccessWs, Event.doneEv] = _
          rw [run_scan_events, hev]
      | false =>
          simp only [if_false]
          refine ⟨Event.deviceInit :: (pre0 ++ [last]),
            Event.errorEv "Failed to store fingerprint", [],
            ?_, rfl, .inl rfl, hfil⟩
          show Event.deviceInit :: (run_scan b s).1 ++
            [Event.errorEv "Failed to store fingerprint"] = _
          rw [run_scan_events, hev]

/-- Invariant of the disconnect-first race: the channel is closed exactly
once, by the orchestrator's `ws.close(code=1001)` (so `closes` is `[]`
before that step and `[1001]` from then on), and a finished scan task has
always closed the device in its `finally` cleanup. -/
def raceInv (st : RaceState) : Prop :=
  (st.closes = if st.orch = OrchLoc.atBranch ∨ st.orch = OrchLoc.afterCancel
    then ([] : List Nat) else [1001]) ∧
  (st.scan = ScanLoc.finishedScan → st.deviceOpen = false)

lemma raceInv_init : raceInv raceInit := by
  constructor
  · rfl
  · intro h
    cases h

lemma raceInv_step {s t : RaceState} (h : RaceStep s t) (hi : raceInv s) : raceInv t := by
  cases h with
  | cancelRunning d c =>
      rcases hi with ⟨hc, _⟩
      refine ⟨?_, ?_⟩
      · simpa using hc
      · intro hfin
        cases hfin
  | cancelDone d c =>
      rcases hi with ⟨hc, hd⟩
      refine ⟨?_, ?_⟩
      · simpa using hc
      · intro _
        exact hd rfl
  | closeChannel sc d c =>
      rcases hi with ⟨hc, hd⟩
      refine ⟨?_, hd⟩
      simp at hc
      simp [hc]
  | orchReturn sc d c =>
      rcases hi with ⟨hc, hd⟩
      refine ⟨?_, hd⟩
      simpa using hc
  | scanFinish o d c =>
      rcases hi with ⟨hc, _⟩
      exact ⟨hc, fun _ => rfl⟩
  | scanCancelled o d c =>
      rcases hi with ⟨hc, _⟩
      exact ⟨hc, fun _ => rfl⟩

/-- The configuration reached by running the orchestrator's three steps of
the disconnect-first branch (cancel the scan task, close the channel,
return) before the cancelled scan task gets to run its cleanup. -/
def raceBad : RaceState :=
  ⟨OrchLoc.returned, ScanLoc.cancelRequested, true, [1001]⟩

/-- C2 counterexample.  There is an execution of the disconnect-first
branch in which the orchestrator has already returned (after cancelling
the scan task and closing the channel, without awaiting the cancelled
task) while the device is still open: the claim that the device is never
open after the orchestrator returns is false.  The device is closed only
later, when the cancelled scan task runs its `finally` cleanup. -/
theorem claimC2_counterexample :
    RaceReaches raceInit raceBad ∧
    raceBad.orch = OrchLoc.returned ∧ raceBad.deviceOpen = true := by
  refine ⟨?_, rfl, rfl⟩
  exact Relation.ReflTransGen.head (RaceStep.cancelRunning true [])
    (Relation.ReflTransGen.head (RaceStep.closeChannel ScanLoc.cancelRequested true [])
      (Relation.ReflTransGen.head (RaceStep.orchReturn ScanLoc.cancelRequested true [1001])
        Relation.ReflTransGen.refl))

/-- C2 (amended): the two branches of the race are exclusive, so on every
execution at most one `ws.close` is performed (never both paths); and on
every reachable configuration of the disconnect-first branch, once the
scan task has finished, the device has been closed by its cleanup — the
device is closed on every exit path, but possibly only after the
orchestrator has already returned. -/
theorem claimC2_amended :
    (∀ (se so : Bool) (b : DeviceBehavior) (s : Sess),
      (ws_scan se so b s).closes.length ≤ 1) ∧
    (∀ st : RaceState, RaceReaches raceInit st →
      st.closes.length ≤ 1 ∧
      (st.scan = ScanLoc.finishedScan → st.deviceOpen = false)) := by
  constructor
  · intro se so b s
    cases se
    · simp [ws_scan]
    · simp only [ws_scan, if_true]
      cases htpl : (run_scan b s).2.1 with
      | none => simp
      | some tq => cases so <;> simp
  · intro st hst
    have hinv : raceInv st := by
      induction hst with
      | refl => exact raceInv_init
      | tail _ hstep ih => exact raceInv_step hstep ih
    rcases hinv with ⟨hcl, hdev⟩
    refine ⟨?_, hdev⟩
    rw [hcl]
    split <;> simp

/-- Witness for C2 (amended) at concrete inputs: the healthy full scan
closes the channel once, and the initial race configuration (reachable by
reflexivity) satisfies the invariant conclusions. -/
theorem claimC2_amended_witness :
    (ws_scan true true bGood sessDemo).closes.length ≤ 1 ∧
    (raceInit.closes.length ≤ 1 ∧
      (raceInit.scan = ScanLoc.finishedScan → raceInit.deviceOpen = false)) :=
  ⟨claimC2_amended.1 true true bGood sessDemo,
   claimC2_amended.2 raceInit Relation.ReflTransGen.refl⟩

/-- Whether an event is of the `capture_success` type. -/
def isSuccessEv (e : Event) : Bool :=
  e.etype == "capture_success"

lemma isSuccessEv_of_terminal_false {e : Event} (h : isTerminalType e = false) :
    isSuccessEv e = false := by
  unfold isTerminalType at h
  unfold isSuccessEv
  rcases Bool.or_eq_false_iff.mp h with ⟨h1, _⟩
  rcases Bool.or_eq_false_iff.mp h1 with ⟨h2, _⟩
  exact h2

lemma countSuccess_of_noTerminal {l : List Event} (h : noTerminal l) :
    l.countP isSuccessEv = 0 := by
  refine List.countP_eq_zero.2 ?_
  intro a ha
  simp [isSuccessEv_of_terminal_false (h a ha)]

@[simp] lemma isAttemptEv_errorEv (m : String) : isAttemptEv (.errorEv m) = false := rfl

@[simp] lemma isAttemptEv_deviceInit : isAttemptEv .deviceInit = false := rfl

@[simp] lemma isAttemptEv_deviceConfigured : isAttemptEv .deviceConfigured = false := rfl

@[simp] lemma isAttemptEv_deviceReady : isAttemptEv .deviceReady = false := rfl

@[simp] lemma isAttemptEv_qualityCheck (q : Nat) (lv : String) :
    isAttemptEv (.qualityCheck q lv) = false := rfl

@[simp] lemma isAttemptEv_warning (m : String) : isAttemptEv (.warningEv m) = false := rfl

@[simp] lemma isAttemptEv_processing : isAttemptEv .processing = false := rfl

@[simp] lemma isAttemptEv_successScan (q t : Nat) :
    isAttemptEv (.captureSuccessScan q t) = false := rfl

@[simp] lemma isAttemptEv_successWs : isAttemptEv .captureSuccessWs = false := rfl

@[simp] lemma isAttemptEv_captureFailed : isAttemptEv .captureFailed = false := rfl

@[simp] lemma isAttemptEv_doneEv : isAttemptEv .doneEv = false := rfl

@[simp] lemma isAttemptEv_scanErrEv (e : PyErr) : isAttemptEv (scanErrEv e) = false := rfl

lemma countAttempts_configure (b : DeviceBehavior) (d : DevState) :
    (configure_device b d).1.countP isAttemptEv = 0 := by
  unfold configure_device
  cases h : set_template_format b (set_brightness b d 50) <;> simp [h]

lemma countAttempts_verify (b : DeviceBehavior) :
    (verify_image_quality b).1.countP isAttemptEv = 0 := by
  unfold verify_image_quality
  cases h : get_image_quality b <;> simp [h]

/-- The retry loop inside `scanAfterOpen` records at most 3 attempts and
its surroundings emit no `capture_attempt` events. -/
lemma scanAfterOpen_attempts (b : DeviceBehavior) (d3 : DevState) :
    (∃ n, (scanAfterOpen b d3).attempts = some n ∧ n ≤ 3) ∧
    (scanAfterOpen b d3).events.countP isAttemptEv ≤ 3 := by
  simp only [scanAfterOpen]
  set cfg := configure_device b d3 with hcfg
  set d5 := blink_led cfg.2 with hd5
  set cap := capture_image_with_retry b d5 cfg.2.width cfg.2.height with hcap
  have hcnt : cap.2.2 ≤ 3 := by
    rw [hcap]
    exact captureRetryAux_cnt_le b d5 cfg.2.width cfg.2.height 3 3 3 1 0
      (by omega) (by omega)
  have hcapev : cap.1.countP isAttemptEv ≤ 3 := by
    rw [hcap]
    exact captureRetryAux_attempts_le b d5 cfg.2.width cfg.2.height 3 3 1 0
  have hcfgev : cfg.1.countP isAttemptEv = 0 := by
    rw [hcfg]; exact countAttempts_configure b d3
  have hw : ∀ q : Nat, (if q < 40 then
      [Event.warningEv ("Image quality low (" ++ toString q ++
         "). Please try again with a cleaner, drier finger.")] else
      ([] : List Event)).countP isAttemptEv = 0 := by
    intro q
    split <;> simp
  cases himg : cap.2.1 with
  | none =>
      refine ⟨⟨cap.2.2, rfl, hcnt⟩, ?_⟩
      simp only [List.countP_append, List.countP_cons, hcfgev]
      simp
      omega
  | some img =>
      cases ht : create_template b d5 with
      | error e =>
          refine ⟨⟨cap.2.2, rfl, hcnt⟩, ?_⟩
          simp only [List.countP_append, List.countP_cons, hcfgev,
            countAttempts_verify b, hw]
          simp
          omega
      | ok tpl =>
          refine ⟨⟨cap.2.2, rfl, hcnt⟩, ?_⟩
          simp only [List.countP_append, List.countP_cons, hcfgev,
            countAttempts_verify b, hw]
          simp
          omega

/-- Case analysis on the `try` body: either the device bring-up raised
(one `error` event, no template, loop never entered), or the workflow
reached the post-open phase `scanAfterOpen`. -/
lemma runScanTry_cases (b : DeviceBehavior) :
    (∃ e dv, runScanTry b = ⟨[scanErrEv e], none, dv, none⟩) ∨
    (∃ d3, runScanTry b = scanAfterOpen b d3) := by
  unfold runScanTry
  by_cases hs : b.sdkLoadOk
  · simp only [hs, if_true]
    by_cases hcr : b.createOk
    · simp only [devCreate, hcr, if_true]
      by_cases hin : b.initOk
      · simp only [devInit, hin, if_true]
        by_cases hop : b.openOk
        · simp only [devOpen, hop, if_true]
          by_cases hinfo : b.infoOk
          · simp only [hinfo, if_true]
            exact .inr ⟨_, rfl⟩
          · simp only [hinfo, if_false]
            exact .inr ⟨_, rfl⟩
        · simp only [devOpen, hop, if_false]
          exact .inl ⟨_, _, rfl⟩
      · simp only [devInit, hin, if_false]
        exact .inl ⟨_, _, rfl⟩
    · simp only [devCreate, hcr, if_false]
      exact .inl ⟨_, _, rfl⟩
  · simp only [hs, if_false]
    exact .inl ⟨_, _, rfl⟩

lemma runScanTry_attempts_bound (b : DeviceBehavior) :
    ((runScanTry b).attempts = none ∨
      ∃ n, (runScanTry b).attempts = some n ∧ n ≤ 3) ∧
    (runScanTry b).events.countP isAttemptEv ≤ 3 := by
  rcases runScanTry_cases b with ⟨e, dv, h⟩ | ⟨d3, h⟩
  · rw [h]
    exact ⟨.inl rfl, by simp⟩
  · rw [h]
    obtain ⟨⟨n, hn, hle⟩, hev⟩ := scanAfterOpen_attempts b d3
    exact ⟨.inr ⟨n, hn, hle⟩, hev⟩

lemma scanAfterOpen_template_none (b : DeviceBehavior) (d3 : DevState)
    (hfail : ∀ a, 1 ≤ a → a ≤ 3 → b.capture a ≠ CaptureOutcome.okc) :
    (scanAfterOpen b d3).template = none := by
  simp only [scanAfterOpen]
  set cfg := configure_device b d3 with hcfg
  set d5 := blink_led cfg.2 with hd5
  set cap := capture_image_with_retry b d5 cfg.2.width cfg.2.height with hcap
  have hnone : cap.2.1 = none := by
    rw [hcap]
    exact captureRetryAux_none b d5 cfg.2.width cfg.2.height 3 3 1 0
      (fun a h1 h2 => hfail a h1 (by omega))
  cases himg : cap.2.1 with
  | none => rfl
  | some img => rw [himg] at hnone; cases hnone

lemma runScanTry_template_none (b : DeviceBehavior)
    (hfail : ∀ a, 1 ≤ a → a ≤ 3 → b.capture a ≠ CaptureOutcome.okc) :
    (runScanTry b).template = none := by
  rcases runScanTry_cases b with ⟨e, dv, h⟩ | ⟨d3, h⟩
  · rw [h]
  · rw [h]
    exact scanAfterOpen_template_none b d3 hfail

@[simp] lemma isSuccessEv_errorEv (m : String) : isSuccessEv (.errorEv m) = false := rfl

@[simp] lemma isSuccessEv_deviceInit : isSuccessEv .deviceInit = false := rfl

@[simp] lemma isSuccessEv_captureFailed : isSuccessEv .captureFailed = false := rfl

lemma countSuccess_runScanTry_none (b : DeviceBehavior)
    (h : (runScanTry b).template = none) :
    (runScanTry b).events.countP isSuccessEv = 0 := by
  obtain ⟨pre0, last, hev, hpre0, _, hcase⟩ := runScanTry_shape b
  rcases hcase with ⟨_, m, hm⟩ | ⟨t, q, ht, _⟩
  · rw [hev, hm]
    simp [List.countP_append, countSuccess_of_noTerminal hpre0]
  · rw [h] at ht
    simp at ht

/-- C3 (confirmed): the session never makes more than `maxAttempts = 3`
image-capture attempts (both the `_capture_attempts` attribute and the
number of `capture_attempt` events are bounded by 3); and a session in
which all 3 attempts fail to yield a usable image returns no template,
emits the route's `capture_failed` terminal event (preceded by the
workflow's `error` event, per C1), and emits no `capture_success`-typed
event at all. -/
theorem claimC3 (storeOk : Bool) (b : DeviceBehavior) (s : Sess)
    (hfail : ∀ a, 1 ≤ a → a ≤ 3 → b.capture a ≠ CaptureOutcome.okc) :
    (∀ (b2 : DeviceBehavior) (s2 : Sess), s2.captureAttempts ≤ 3 →
      (run_scan b2 s2).2.2.captureAttempts ≤ 3 ∧
      (run_scan b2 s2).1.countP isAttemptEv ≤ 3) ∧
    (run_scan b s).2.1 = none ∧
    (ws_scan true storeOk b s).events.countP isSuccessEv = 0 ∧
    Event.captureFailed ∈ (ws_scan true storeOk b s).events := by
  have htpl : (run_scan b s).2.1 = none := by
    rw [run_scan_template]
    exact runScanTry_template_none b hfail
  refine ⟨?_, htpl, ?_, ?_⟩
  · intro b2 s2 h2
    constructor
    · show ((runScanTry b2).attempts.getD s2.captureAttempts) ≤ 3
      rcases (runScanTry_attempts_bound b2).1 with hn | ⟨n, hn, hle⟩
      · rw [hn]; exact h2
      · rw [hn]; exact hle
    · rw [run_scan_events]
      exact (runScanTry_attempts_bound b2).2
  · simp only [ws_scan, if_true, htpl]
    simp only [List.countP_append, List.countP_cons]
    rw [run_scan_events]
    simp [countSuccess_runScanTry_none b (run_scan_template b s ▸ htpl)]
  · simp only [ws_scan, if_true, htpl]
    simp

/-- Witness for C3 at the all-timeouts behavior. -/
theorem claimC3_witness :
    (run_scan bAllTimeout sessDemo).2.2.captureAttempts ≤ 3 ∧
    (run_scan bAllTimeout sessDemo).2.1 = none ∧
    Event.captureFailed ∈ (ws_scan true true bAllTimeout sessDemo).events := by
  have h := claimC3 true bAllTimeout sessDemo
    (fun a _ _ => by simp [bAllTimeout])
  exact ⟨(h.1 bAllTimeout sessDemo (by decide)).1, h.2.1, h.2.2.2⟩

/-- A device whose first two capture attempts time out and whose third
raises the no-valid-fingerprint error (SDK code 57). -/
def bC4 : DeviceBehavior :=
  { capture := fun a => if a ≤ 2 then .timeoutc else .wrongImage }

/-- An opened 2x3-pixel device, as the retry loop receives it. -/
def dOpen : DevState :=
  { hFPM := true, opened := true, width := 2, height := 3 }

/-- C4 counterexample.  On the behavior where attempt 3 raises the
no-valid-fingerprint error, the event emitted in response is a
`capture_error` event — the same event type the claim reserves for "any
other device error" — and no retry-guidance (`retry`) event is emitted for
it at all (the two `retry` events in the trace belong to the backoff after
the two timeouts): the claimed distinct retry-guidance response to a
no-valid-fingerprint error does not exist in the code. -/
theorem claimC4_counterexample :
    (capture_image_with_retry bC4 dOpen 2 3).1 =
      [Event.captureAttemptEv 1 3,
       Event.timeoutEv "Timeout on attempt 1. Please try again.", Event.retryEv,
       Event.captureAttemptEv 2 3,
       Event.timeoutEv "Timeout on attempt 2. Please try again.", Event.retryEv,
       Event.captureAttemptEv 3 3,
       Event.captureErrorEv "Capture failed: No valid fingerprint detected"] ∧
    (capture_image_with_retry bC4 dOpen 2 3).2.1 = none ∧
    ((capture_image_with_retry bC4 dOpen 2 3).1.countP
      (fun e => e.etype == "retry")) = 2 := by
  exact ⟨rfl, rfl, rfl⟩

/-- The events one failed iteration of the retry loop emits: the
`capture_attempt` announcement, then a `timeout` event for a timeout and a
`capture_error` event for every other device error (the
no-valid-fingerprint error included), then — except after the last
attempt — the post-backoff `retry` event. -/
def failBlock (m attempt : Nat) (o : CaptureOutcome) : List Event :=
  match o with
  | .okc => []
  | .timeoutc =>
      [Event.captureAttemptEv attempt m,
       Event.timeoutEv ("Timeout on attempt " ++ toString attempt ++ ". Please try again.")] ++
      retryTail attempt m
  | .wrongImage =>
      [Event.captureAttemptEv attempt m,
       Event.captureErrorEv "Capture failed: No valid fingerprint detected"] ++
      retryTail attempt m
  | .deviceErr msg =>
      [Event.captureAttemptEv attempt m,
       Event.captureErrorEv ("Capture failed: " ++ msg)] ++
      retryTail attempt m

/-- C4 (amended): within the retry loop, for every attempt 1..3: a timeout
error emits a `timeout` event; a no-valid-fingerprint error and any other
device error both emit a `capture_error` event; after every failed attempt
except the last the loop pauses for the backoff and emits a single `retry`
event before the next attempt; and after the final failed attempt the
loop returns `None` rather than raising. -/
theorem claimC4_amended (b : DeviceBehavior) (d : DevState) (w h : Nat)
    (hfail : ∀ a, 1 ≤ a → a ≤ 3 → b.capture a ≠ CaptureOutcome.okc) :
    (capture_image_with_retry b d w h).1 =
      failBlock 3 1 (b.capture 1) ++ failBlock 3 2 (b.capture 2) ++
        failBlock 3 3 (b.capture 3) ∧
    (capture_image_with_retry b d w h).2.1 = none := by
  cases hc1 : b.capture 1 with
  | okc => exact absurd hc1 (hfail 1 (by omega) (by omega))
  | _ =>
    cases hc2 : b.capture 2 with
    | okc => exact absurd hc2 (hfail 2 (by omega) (by omega))
    | _ =>
      cases hc3 : b.capture 3 with
      | okc => exact absurd hc3 (hfail 3 (by omega) (by omega))
      | _ =>
        constructor <;>
          simp [capture_image_with_retry, captureRetryAux, capture_image_ex,
            hc1, hc2, hc3, failBlock, retryTail, pyStr]

/-- Witness for C4 (amended) at the two-timeouts-then-no-finger behavior. -/
theorem claimC4_amended_witness :
    (capture_image_with_retry bC4 dOpen 2 3).1 =
      failBlock 3 1 (bC4.capture 1) ++ failBlock 3 2 (bC4.capture 2) ++
        failBlock 3 3 (bC4.capture 3) ∧
    (capture_image_with_retry bC4 dOpen 2 3).2.1 = none :=
  claimC4_amended bC4 dOpen 2 3
    (fun a _ _ => by
      unfold bC4
      dsimp only
      split <;> simp)

/-- A device on which setting the template format fails (everything else
healthy). -/
def bNoFormat : DeviceBehavior := { formatOk := false }

/-- C5 counterexample.  With only the template-format configuration
failing, the configuration failure itself is swallowed and capture and
quality-check proceed (`image_captured`, `quality_check`, `processing` are
all emitted) — but template extraction then raises because
`max_template_size` is still 0, and the session ends with an `error`
event and `capture_failed` instead of proceeding with device defaults. -/
theorem claimC5_counterexample :
    (ws_scan true true bNoFormat sessDemo).events =
      [Event.deviceInit, Event.deviceReady,
       Event.captureAttemptEv 1 3, Event.imageCaptured,
       Event.qualityCheck 75 "EXCELLENT", Event.processing,
       Event.errorEv "Scan error: Template format not set. Call set_template_format() first.",
       Event.captureFailed] ∧
    (ws_scan true true bNoFormat sessDemo).events.countP isSuccessEv = 0 := by
  exact ⟨rfl, rfl⟩

@[simp] lemma blink_led_width (d : DevState) : (blink_led d).width = d.width := rfl

@[simp] lemma blink_led_height (d : DevState) : (blink_led d).height = d.height := rfl

@[simp] lemma blink_led_mts (d : DevState) :
    (blink_led d).maxTemplateSize = d.maxTemplateSize := rfl

@[simp] lemma set_brightness_width (b : DeviceBehavior) (d : DevState) (v : Nat) :
    (set_brightness b d v).width = d.width := by
  unfold set_brightness; split <;> rfl

@[simp] lemma set_brightness_height (b : DeviceBehavior) (d : DevState) (v : Nat) :
    (set_brightness b d v).height = d.height := by
  unfold set_brightness; split <;> rfl

@[simp] lemma set_brightness_mts (b : DeviceBehavior) (d : DevState) (v : Nat) :
    (set_brightness b d v).maxTemplateSize = d.maxTemplateSize := by
  unfold set_brightness; split <;> rfl

/-- After a failed template-format configuration (swallowed by
`_configure_device`), a successful first capture attempt still proceeds
through quality verification and the `processing` announcement, but
`create_template` raises because `max_template_size` is still 0, and the
`try` body ends with the corresponding `error` event and no template. -/
lemma scanAfterOpen_formatFail (b : DeviceBehavior) (d3 : DevState)
    (hfmt : b.formatOk = false) (hm : d3.maxTemplateSize = 0)
    (hcap : b.capture 1 = CaptureOutcome.okc) :
    ∃ pre1, (scanAfterOpen b d3).events =
      pre1 ++ [scanErrEv (PyErr.secuGen
        "Template format not set. Call set_template_format() first.")] ∧
      Event.imageCaptured ∈ pre1 ∧ Event.processing ∈ pre1 ∧
      (scanAfterOpen b d3).template = none := by
  have hcfg : configure_device b d3 = ([], set_brightness b d3 50) := by
    unfold configure_device set_template_format
    simp [hfmt]
  have hloop : capture_image_with_retry b (blink_led (set_brightness b d3 50))
      (set_brightness b d3 50).width (set_brightness b d3 50).height =
      ([Event.captureAttemptEv 1 3, Event.imageCaptured],
       some (List.replicate ((set_brightness b d3 50).width *
         (set_brightness b d3 50).height) 0), 1) := by
    unfold capture_image_with_retry captureRetryAux capture_image_ex
    simp [hcap]
  have hct : create_template b (blink_led (set_brightness b d3 50)) =
      .error (.secuGen "Template format not set. Call set_template_format() first.") := by
    unfold create_template
    simp [hm]
  simp only [scanAfterOpen, hcfg, hloop, hct]
  refine ⟨_, rfl, ?_, ?_, ?_⟩
  · simp
  · simp
  · trivial

/-- C5 (amended): a failure while configuring the device is non-fatal AT
CONFIGURATION TIME — no exception propagates, and capture and quality
verification still proceed (a brightness failure alone is entirely
harmless since `set_brightness` never raises) — but when the
template-format configuration failed, `max_template_size` is still 0, so
template extraction raises and the session ends with the corresponding
`error` event and the route's `capture_failed`, rather than completing
with device defaults. -/
theorem claimC5_amended (storeOk : Bool) (b : DeviceBehavior) (s : Sess)
    (hsdk : b.sdkLoadOk = true) (hcr : b.createOk = true)
    (hin : b.initOk = true) (hop : b.openOk = true)
    (hfmt : b.formatOk = false) (hcap : b.capture 1 = CaptureOutcome.okc) :
    Event.imageCaptured ∈ (ws_scan true storeOk b s).events ∧
    Event.processing ∈ (ws_scan true storeOk b s).events ∧
    (run_scan b s).2.1 = none ∧
    ∃ pre, (ws_scan true storeOk b s).events = pre ++
      [scanErrEv (PyErr.secuGen
         "Template format not set. Call set_template_format() first."),
       Event.captureFailed] := by
  have hrun : ∃ d3, runScanTry b = scanAfterOpen b d3 ∧ d3.maxTemplateSize = 0 := by
    unfold runScanTry
    simp only [hsdk, if_true, devCreate, hcr, devInit, hin, devOpen, hop]
    by_cases hinfo : b.infoOk
    · simp only [hinfo, if_true]
      exact ⟨_, rfl, rfl⟩
    · simp only [hinfo, if_false]
      exact ⟨_, rfl, rfl⟩
  obtain ⟨d3, heq, hm⟩ := hrun
  obtain ⟨pre1, hevs, hmem1, hmem2, htpl0⟩ := scanAfterOpen_formatFail b d3 hfmt hm hcap
  have htpl : (run_scan b s).2.1 = none := by
    rw [run_scan_template, heq, htpl0]
  have hscan : (run_scan b s).1 = pre1 ++ [scanErrEv (PyErr.secuGen
      "Template format not set. Call set_template_format() first.")] := by
    rw [run_scan_events, heq, hevs]
  refine ⟨?_, ?_, htpl, ?_⟩
  · simp only [ws_scan, if_true, htpl]
    simp [hscan, hmem1]
  · simp only [ws_scan, if_true, htpl]
    simp [hscan, hmem2]
  · simp only [ws_scan, if_true, htpl]
    refine ⟨Event.deviceInit :: pre1, ?_⟩
    show Event.deviceInit :: (run_scan b s).1 ++ [Event.captureFailed] = _
    rw [hscan]
    simp

/-- Witness for C5 (amended) at the format-failure behavior. -/
theorem claimC5_amended_witness :
    Event.imageCaptured ∈ (ws_scan true true bNoFormat sessDemo).events ∧
    Event.processing ∈ (ws_scan true true bNoFormat sessDemo).events ∧
    (run_scan bNoFormat sessDemo).2.1 = none ∧
    ∃ pre, (ws_scan true true bNoFormat sessDemo).events = pre ++
      [scanErrEv (PyErr.secuGen
         "Template format not set. Call set_template_format() first."),
       Event.captureFailed] :=
  claimC5_amended true bNoFormat sessDemo rfl rfl rfl rfl rfl rfl

/-- C6 counterexample.  `is_expired` uses a strict comparison, so at the
instant the session's current time has exactly reached `expiresAt` it
still returns false; and the orchestrator never polls `is_expired` at all:
a session whose expiry has long passed still runs to normal completion —
no error-class event is sent and the channel closes with the normal code
1000 — instead of being forced to terminate as Expired. -/
theorem claimC6_counterexample :
    is_expired sessDemo 600 = false ∧
    is_expired sessDemo 601 = true ∧
    ((ws_scan true true bGood sessDemo).events.countP
      (fun e => e.etype == "error")) = 0 ∧
    ((ws_scan true true bGood sessDemo).events.contains Event.doneEv) = true ∧
    (ws_scan true true bGood sessDemo).closes = [1000] := by
  exact ⟨rfl, rfl, rfl, rfl, rfl⟩

/-- C6 (amended): `is_expired` returns true exactly when the current time
is strictly past `expiresAt`; and no component of the orchestrator
evaluates it — the route's event stream and close codes are independent
of the session's `expiresAt`, so reaching or exceeding expiry never forces
a transition to Expired, never runs cleanup early, and never sends an
error-class event. -/
theorem claimC6_amended (s : Sess) (nowT : Nat) (storeOk : Bool)
    (b : DeviceBehavior) (e1 e2 : Nat) :
    (is_expired s nowT = true ↔ s.expiresAt < nowT) ∧
    (ws_scan true storeOk b { s with expiresAt := e1 }).events =
      (ws_scan true storeOk b { s with expiresAt := e2 }).events ∧
    (ws_scan true storeOk b { s with expiresAt := e1 }).closes =
      (ws_scan true storeOk b { s with expiresAt := e2 }).closes := by
  refine ⟨by simp [is_expired], ?_, ?_⟩ <;>
  · simp only [ws_scan, if_true, run_scan_template, run_scan_events]
    cases htpl : (runScanTry b).template with
    | none => rfl
    | some v => cases storeOk <;> rfl

/-- C9 counterexample.  A session that terminates successfully (the full
healthy workflow, ending in `capture_success` and `done` with a normal
close) still has `active = true` afterwards: nothing on the
success/failure paths ever clears the flag. -/
theorem claimC9_counterexample :
    ((ws_scan true true bGood sessDemo).sess.map Sess.active) = some true ∧
    ((ws_scan true true bGood sessDemo).events.contains Event.doneEv) = true ∧
    (ws_scan true true bGood sessDemo).closes = [1000] := by
  exact ⟨rfl, rfl, rfl⟩

/-- C9 (amended): `active` is true from session creation on, `run_scan`
never modifies it (so sessions terminating by success or failure keep
`active = true`), and only `cancel()` sets it to false. -/
theorem claimC9_amended (b : DeviceBehavior) (s : Sess)
    (idn fn : String) (t : Option Nat) (nowT : Nat) :
    (mkScanSession idn fn t nowT).active = true ∧
    (run_scan b s).2.2.active = s.active ∧
    (sessionCancel b s).active = false := by
  exact ⟨rfl, rfl, rfl⟩

lemma update_led_false_self (d : DevState) (h : d.led = false) :
    ({ d with led := false } : DevState) = d := by
  cases d
  simp_all

lemma stop_led_led (b : DeviceBehavior) (d : DevState) (h : d.led = false) :
    stop_led b d = d := by
  unfold stop_led
  split
  · rfl
  · cases d
    simp_all

lemma stop_led_hFPM (b : DeviceBehavior) (d : DevState) :
    (stop_led b d).hFPM = d.hFPM := by
  unfold stop_led
  split <;> rfl

lemma cleanup_core_hFPM (b : DeviceBehavior) (d : DevState) :
    (dev_terminate b (dev_close b (stop_led b d))).hFPM = false := by
  unfold dev_close dev_terminate
  by_cases h2 : (stop_led b d).hFPM <;> by_cases h3 : b.closeRaises <;>
    simp [h2, h3]

lemma cleanup_core_led (b : DeviceBehavior) (d : DevState)
    (hl : b.setLedRaises = false) :
    (dev_terminate b (dev_close b (stop_led b d))).led = false := by
  have h1 : (stop_led b d).led = false := by
    unfold stop_led
    simp [hl]
  unfold dev_close dev_terminate
  by_cases h2 : (stop_led b d).hFPM <;> by_cases h3 : b.closeRaises <;>
    simp [h2, h3, h1]

lemma cleanup_core_led_raises (b : DeviceBehavior) (d : DevState)
    (hl : b.setLedRaises = true) :
    (dev_terminate b (dev_close b (stop_led b d))).led = d.led := by
  have h1 : stop_led b d = d := by
    unfold stop_led
    simp [hl]
  rw [h1]
  unfold dev_close dev_terminate
  by_cases h2 : d.hFPM <;> by_cases h3 : b.closeRaises <;> simp [h2, h3]

/-- C8 (confirmed): `_cleanup_device` is idempotent and total.  A second
invocation — including after SDK-call exceptions during the first
(`closeRaises`, `terminateRaises`, `setLedRaises` are all covered by the
universally quantified behavior) — leaves the state exactly as the first
left it: in particular the SDK close/terminate calls are not repeated
(`closeCalls`/`termCalls` unchanged), because `terminate` nulls the handle
in its `finally` and both `close` and `terminate` return immediately on a
null handle.  It tolerates a missing device object (`none`), an unopened
device and a null handle; after any cleanup of an existing device the
handle is null, and `close`/`terminate` were each invoked exactly once if
and only if the handle was non-null. -/
theorem claimC8 (b : DeviceBehavior) (od : Option DevState) :
    cleanup_device b (cleanup_device b od) = cleanup_device b od ∧
    cleanup_device b none = none ∧
    (∀ d : DevState,
      ((cleanup_device b (some d)).map DevState.hFPM) = some false ∧
      ((cleanup_device b (some d)).map DevState.closeCalls) =
        some (if d.hFPM then d.closeCalls + 1 else d.closeCalls) ∧
      ((cleanup_device b (some d)).map DevState.termCalls) =
        some (if d.hFPM then d.termCalls + 1 else d.termCalls)) := by
  refine ⟨?_, rfl, ?_⟩
  · cases od with
    | none => rfl
    | some d =>
        show some (dev_terminate b (dev_close b (stop_led b
          (dev_terminate b (dev_close b (stop_led b d)))))) = _
        set x := dev_terminate b (dev_close b (stop_led b d)) with hx
        have hxh : x.hFPM = false := by rw [hx]; exact cleanup_core_hFPM b d
        have hled : stop_led b x = x := by
          unfold stop_led
          cases hl : b.setLedRaises with
          | true => simp
          | false =>
              have hx0 : x.led = false := by rw [hx]; exact cleanup_core_led b d hl
              simp only [Bool.false_eq_true, if_false]
              exact update_led_false_self x hx0
        have hclose : dev_close b x = x := by
          unfold dev_close
          simp [hxh]
        have hterm : dev_terminate b x = x := by
          unfold dev_terminate
          simp [hxh]
        rw [hled, hclose, hterm, hx]
        rfl
  · intro d
    refine ⟨?_, ?_, ?_⟩
    · show some (dev_terminate b (dev_close b (stop_led b d))).hFPM = some false
      rw [cleanup_core_hFPM]
    · show some (dev_terminate b (dev_close b (stop_led b d))).closeCalls = _
      unfold dev_close dev_terminate
      have hs := stop_led_hFPM b d
      have hsc : (stop_led b d).closeCalls = d.closeCalls := by
        unfold stop_led
        split <;> rfl
      by_cases h2 : d.hFPM <;> by_cases h3 : b.closeRaises <;>
        simp [hs, h2, h3, hsc]
    · show some (dev_terminate b (dev_close b (stop_led b d))).termCalls = _
      unfold dev_close dev_terminate
      have hs := stop_led_hFPM b d
      have hst : (stop_led b d).termCalls = d.termCalls := by
        unfold stop_led
        split <;> rfl
      by_cases h2 : d.hFPM <;> by_cases h3 : b.closeRaises <;>
        simp [hs, h2, h3, hst]

/-- Every event the retry loop emits is one of the five attempt-level
kinds: `capture_attempt`, `timeout`, `capture_error`, `retry`,
`image_captured`. -/
lemma captureRetryAux_events_cases (b : DeviceBehavior) (d : DevState)
    (w h m : Nat) (P : Event → Prop)
    (hA : ∀ a k, P (.captureAttemptEv a k)) (hT : ∀ msg, P (.timeoutEv msg))
    (hE : ∀ msg, P (.captureErrorEv msg)) (hR : P .retryEv)
    (hI : P .imageCaptured) :
    ∀ rem att cnt, ∀ e ∈ (captureRetryAux b d w h m rem att cnt).1, P e := by
  intro rem
  induction rem with
  | zero =>
      intro att cnt e he
      simp [captureRetryAux] at he
  | succ k ih =>
    intro att cnt
    have htail : ∀ e ∈ retryTail att m, P e := by
      intro e he
      unfold retryTail at he
      split at he
      · simp only [List.mem_singleton] at he
        subst he
        exact hR
      · cases he
    cases hcap : b.capture att with
    | okc =>
      simp only [captureRetryAux, capture_image_ex, hcap]
      split
      · intro e he
        rcases List.mem_cons.mp he with h | h
        · subst h; exact hA att m
        · simp only [List.mem_singleton] at h
          subst h; exact hI
      · intro e he
        rcases List.mem_cons.mp he with h | h
        · subst h; exact hA att m
        · rcases List.mem_append.mp h with h2 | h2
          · exact htail e h2
          · exact ih (att + 1) att e h2
    | timeoutc =>
      simp only [captureRetryAux, capture_image_ex, hcap]
      intro e he
      rcases List.mem_cons.mp he with h | h
      · subst h; exact hA att m
      · rcases List.mem_cons.mp h with h2 | h2
        · subst h2; exact hT _
        · rcases List.mem_append.mp h2 with h3 | h3
          · exact htail e h3
          · exact ih (att + 1) att e h3
    | wrongImage =>
      simp only [captureRetryAux, capture_image_ex, hcap]
      intro e he
      rcases List.mem_cons.mp he with h | h
      · subst h; exact hA att m
      · rcases List.mem_cons.mp h with h2 | h2
        · subst h2; exact hE _
        · rcases List.mem_append.mp h2 with h3 | h3
          · exact htail e h3
          · exact ih (att + 1) att e h3
    | deviceErr msg =>
      simp only [captureRetryAux, capture_image_ex, hcap]
      intro e he
      rcases List.mem_cons.mp he with h | h
      · subst h; exact hA att m
      · rcases List.mem_cons.mp h with h2 | h2
        · subst h2; exact hE _
        · rcases List.mem_append.mp h2 with h3 | h3
          · exact htail e h3
          · exact ih (att + 1) att e h3

/-- Whether an event is of the `quality_check` type. -/
def isQualityEv (e : Event) : Bool :=
  e.etype == "quality_check"

@[simp] lemma isQualityEv_qualityCheck (q : Nat) (lv : String) :
    isQualityEv (.qualityCheck q lv) = true := rfl

lemma noQuality_of_loop (b : DeviceBehavior) (d : DevState) (w h m : Nat)
    (rem att cnt : Nat) :
    ∀ e ∈ (captureRetryAux b d w h m rem att cnt).1, isQualityEv e = false :=
  captureRetryAux_events_cases b d w h m (fun e => isQualityEv e = false)
    (fun _ _ => rfl) (fun _ => rfl) (fun _ => rfl) rfl rfl rem att cnt

/-- When `_verify_image_quality` catches an exception (returning the
default score 50 with no event), no `quality_check` event appears anywhere
in the `try` body's trace. -/
lemma scanAfterOpen_noQuality (b : DeviceBehavior) (d3 : DevState)
    (hv : (verify_image_quality b).1 = []) :
    ∀ e ∈ (scanAfterOpen b d3).events, isQualityEv e = false := by
  simp only [scanAfterOpen]
  set cfg := configure_device b d3 with hcfg
  set d5 := blink_led cfg.2 with hd5
  set cap := capture_image_with_retry b d5 cfg.2.width cfg.2.height with hcap
  have hcfgq : ∀ e ∈ cfg.1, isQualityEv e = false := by
    rw [hcfg]
    unfold configure_device
    cases h : set_template_format b (set_brightness b d3 50) with
    | ok d2 =>
        intro e he
        simp only [h, List.mem_singleton] at he
        subst he
        rfl
    | error ex =>
        intro e he
        simp [h] at he
  have hcapq : ∀ e ∈ cap.1, isQualityEv e = false := by
    rw [hcap]
    exact noQuality_of_loop b d5 cfg.2.width cfg.2.height 3 3 1 0
  cases himg : cap.2.1 with
  | none =>
      intro e he
      rcases List.mem_append.mp he with h1 | h1
      · rcases List.mem_append.mp h1 with h2 | h2
        · rcases List.mem_append.mp h2 with h3 | h3
          · exact hcfgq e h3
          · simp only [List.mem_singleton] at h3; subst h3; rfl
        · exact hcapq e h2
      · simp only [List.mem_singleton] at h1; subst h1; rfl
  | some img =>
      have hwq : ∀ e ∈ (if (verify_image_quality b).2 < 40 then
          [Event.warningEv ("Image quality low (" ++ toString (verify_image_quality b).2 ++
             "). Please try again with a cleaner, drier finger.")] else
          ([] : List Event)), isQualityEv e = false := by
        intro e he
        split at he
        · simp only [List.mem_singleton] at he; subst he; rfl
        · cases he
      cases ht : create_template b d5 with
      | error ex =>
          intro e he
          rcases List.mem_append.mp he with h1 | h1
          · rcases List.mem_append.mp h1 with h2 | h2
            · rcases List.mem_append.mp h2 with h3 | h3
              · rcases List.mem_append.mp h3 with h4 | h4
                · rcases List.mem_append.mp h4 with h5 | h5
                  · rcases List.mem_append.mp h5 with h6 | h6
                    · exact hcfgq e h6
                    · simp only [List.mem_singleton] at h6; subst h6; rfl
                  · exact hcapq e h5
                · rw [hv] at h4; cases h4
              · exact hwq e h3
            · simp only [List.mem_singleton] at h2; subst h2; rfl
          · simp only [List.mem_singleton] at h1; subst h1; rfl
      | ok tpl =>
          intro e he
          rcases List.mem_append.mp he with h1 | h1
          · rcases List.mem_append.mp h1 with h2 | h2
            · rcases List.mem_append.mp h2 with h3 | h3
              · rcases List.mem_append.mp h3 with h4 | h4
                · rcases List.mem_append.mp h4 with h5 | h5
                  · rcases List.mem_append.mp h5 with h6 | h6
                    · exact hcfgq e h6
                    · simp only [List.mem_singleton] at h6; subst h6; rfl
                  · exact hcapq e h5
                · rw [hv] at h4; cases h4
              · exact hwq e h3
            · simp only [List.mem_singleton] at h2; subst h2; rfl
          · simp only [List.mem_singleton] at h1; subst h1; rfl

/-- When the first capture attempt answers with an image, the `try` body's
trace consists of the configuration events, the readiness announcement,
the single successful attempt, the quality events, the optional low-quality
warning, the `processing` announcement, and a final terminal event which
is the workflow `capture_success` exactly when template creation
succeeds. -/
lemma scanAfterOpen_captured (b : DeviceBehavior) (d3 : DevState)
    (hcap : b.capture 1 = CaptureOutcome.okc) :
    ∃ tail, (scanAfterOpen b d3).events =
      (configure_device b d3).1 ++ [Event.deviceReady] ++
      [Event.captureAttemptEv 1 3, Event.imageCaptured] ++
      (verify_image_quality b).1 ++
      (if (verify_image_quality b).2 < 40 then
        [Event.warningEv ("Image quality low (" ++
           toString (verify_image_quality b).2 ++
           "). Please try again with a cleaner, drier finger.")] else []) ++
      [Event.processing] ++ tail ∧
      (∀ tpl, create_template b (blink_led (configure_device b d3).2) = .ok tpl →
        tail = [Event.captureSuccessScan (verify_image_quality b).2 tpl.length] ∧
        (scanAfterOpen b d3).template = some tpl) := by
  have hloop : capture_image_with_retry b (blink_led (configure_device b d3).2)
      (configure_device b d3).2.width (configure_device b d3).2.height =
      ([Event.captureAttemptEv 1 3, Event.imageCaptured],
       some (List.replicate ((configure_device b d3).2.width *
         (configure_device b d3).2.height) 0), 1) := by
    unfold capture_image_with_retry captureRetryAux capture_image_ex
    simp [hcap]
  cases ht : create_template b (blink_led (configure_device b d3).2) with
  | error e =>
      refine ⟨[scanErrEv e], ?_, ?_⟩
      · simp only [scanAfterOpen, hloop, ht]
      · intro tpl h
        simp at h
  | ok tpl =>
      refine ⟨[Event.captureSuccessScan (verify_image_quality b).2 tpl.length], ?_, ?_⟩
      · simp only [scanAfterOpen, hloop, ht]
      · intro tpl2 h
        injection h with h2
        subst h2
        exact ⟨rfl, by simp [scanAfterOpen, hloop, ht]⟩

/-- Every event the scan workflow emits is also in the route's event
stream (the route prepends `device_init` and appends its own tail). -/
lemma ws_mem_of_scan (storeOk : Bool) (b : DeviceBehavior) (s : Sess) (e : Event)
    (he : e ∈ (run_scan b s).1) :
    e ∈ (ws_scan true storeOk b s).events := by
  simp only [ws_scan, if_true]
  cases htpl : (run_scan b s).2.1 with
  | none => simp [he]
  | some tq => cases storeOk <;> simp [he]

lemma configure_mts_ok (b : DeviceBehavior) (d : DevState) (hf : b.formatOk = true) :
    (configure_device b d).2.maxTemplateSize = b.maxTemplateSizeV := by
  unfold configure_device set_template_format
  simp [hf]

lemma create_template_ok (b : DeviceBehavior) (d : DevState) (tpl : List Nat)
    (hm : d.maxTemplateSize ≠ 0) (htpl : b.templateOutcome = TemplateOutcome.okt tpl) :
    create_template b d = .ok tpl := by
  unfold create_template
  have h0 : (d.maxTemplateSize == 0) = false := beq_eq_false_iff_ne.mpr hm
  simp [h0, htpl]

/-- A device whose quality call raises a Python exception (everything else
healthy). -/
def bQualExc : DeviceBehavior := { qualityOutcome := .raisesExc }

/-- C7 counterexample.  When the quality call raises, the image was
captured (and the session even completes successfully, with `done`
emitted) yet NO `quality_check` event is emitted at all: the claim that
every session with a captured image emits a quality_check event is false
on the exception path, where the code silently substitutes the default
score 50. -/
theorem claimC7_counterexample :
    ((ws_scan true true bQualExc sessDemo).events.contains Event.imageCaptured) = true ∧
    ((ws_scan true true bQualExc sessDemo).events.countP isQualityEv) = 0 ∧
    ((ws_scan true true bQualExc sessDemo).events.contains Event.doneEv) = true := by
  exact ⟨rfl, rfl, rfl⟩

/-- C7 (amended): whenever the quality call completes with a score `q`
(rather than raising), the session emits `quality_check` carrying `q`; a
score below 40 additionally emits a warning event but never aborts — the
`processing` announcement follows regardless, and whenever template
extraction succeeds the session still reaches the workflow
`capture_success` carrying the same score; the numeric score alone never
causes a failure. -/
theorem claimC7_amended (storeOk : Bool) (b : DeviceBehavior) (s : Sess) (q : Nat)
    (hsdk : b.sdkLoadOk = true) (hcr : b.createOk = true)
    (hin : b.initOk = true) (hop : b.openOk = true)
    (hcap : b.capture 1 = CaptureOutcome.okc)
    (hq : b.qualityOutcome = QualityOutcome.okq q) :
    Event.qualityCheck q (qualityLevel q) ∈ (ws_scan true storeOk b s).events ∧
    (q < 40 → Event.warningEv ("Image quality low (" ++ toString q ++
       "). Please try again with a cleaner, drier finger.") ∈
         (ws_scan true storeOk b s).events) ∧
    Event.processing ∈ (ws_scan true storeOk b s).events ∧
    (∀ tpl, b.templateOutcome = TemplateOutcome.okt tpl → b.formatOk = true →
      b.maxTemplateSizeV ≠ 0 →
      Event.captureSuccessScan q tpl.length ∈ (ws_scan true storeOk b s).events) := by
  have hv : verify_image_quality b = ([Event.qualityCheck q (qualityLevel q)], q) := by
    unfold verify_image_quality get_image_quality
    simp [hq]
  have hrun : ∃ d3, runScanTry b = scanAfterOpen b d3 := by
    unfold runScanTry
    simp only [hsdk, if_true, devCreate, hcr, devInit, hin, devOpen, hop]
    by_cases hinfo : b.infoOk
    · simp only [hinfo, if_true]
      exact ⟨_, rfl⟩
    · simp only [hinfo, if_false]
      exact ⟨_, rfl⟩
  obtain ⟨d3, heq⟩ := hrun
  obtain ⟨tail, hevs, htail⟩ := scanAfterOpen_captured b d3 hcap
  have hscan : (run_scan b s).1 = (scanAfterOpen b d3).events := by
    rw [run_scan_events, heq]
  refine ⟨?_, ?_, ?_, ?_⟩
  · refine ws_mem_of_scan storeOk b s _ ?_
    rw [hscan, hevs, hv]
    simp
  · intro hlt
    refine ws_mem_of_scan storeOk b s _ ?_
    rw [hscan, hevs, hv]
    simp only [if_pos hlt]
    simp
  · refine ws_mem_of_scan storeOk b s _ ?_
    rw [hscan, hevs]
    simp
  · intro tpl htp hf hm
    have hct : create_template b (blink_led (configure_device b d3).2) = .ok tpl := by
      refine create_template_ok b _ tpl ?_ htp
      simp only [blink_led_mts, configure_mts_ok b d3 hf]
      exact hm
    obtain ⟨htl, _⟩ := htail tpl hct
    refine ws_mem_of_scan storeOk b s _ ?_
    rw [hscan, hevs, htl, hv]
    simp

/-- Witness for C7 (amended) on the healthy behavior with quality 75. -/
theorem claimC7_amended_witness :
    Event.qualityCheck 75 (qualityLevel 75) ∈ (ws_scan true true bGood sessDemo).events ∧
    Event.processing ∈ (ws_scan true true bGood sessDemo).events ∧
    Event.captureSuccessScan 75 ([1, 2, 3, 4] : List Nat).length ∈
      (ws_scan true true bGood sessDemo).events := by
  have h := claimC7_amended true bGood sessDemo 75 rfl rfl rfl rfl rfl rfl
  exact ⟨h.1, h.2.2.1, h.2.2.2 [1, 2, 3, 4] rfl rfl (by decide)⟩

/-- C10 (confirmed): quality scoring never propagates an error into the
workflow.  If the quality call raises, `_verify_image_quality` catches it
and returns the default score 50 with no event, so no `quality_check`
event appears anywhere in the session's stream, and the session silently
proceeds — on an otherwise healthy device it still reaches the workflow
`capture_success` carrying quality 50.  If instead the SDK reports a
nonzero status code, `get_image_quality` returns the score 0 rather than
raising. -/
theorem claimC10 (storeOk : Bool) (b : DeviceBehavior) (s : Sess)
    (hq : b.qualityOutcome = QualityOutcome.raisesExc) :
    verify_image_quality b = ([], 50) ∧
    (ws_scan true storeOk b s).events.countP isQualityEv = 0 ∧
    (∀ tpl, b.sdkLoadOk = true → b.createOk = true → b.initOk = true →
      b.openOk = true → b.capture 1 = CaptureOutcome.okc →
      b.templateOutcome = TemplateOutcome.okt tpl → b.formatOk = true →
      b.maxTemplateSizeV ≠ 0 →
      Event.captureSuccessScan 50 tpl.length ∈ (ws_scan true storeOk b s).events) ∧
    (∀ b2 : DeviceBehavior, b2.qualityOutcome = QualityOutcome.sdkErr →
      get_image_quality b2 = Except.ok 0) := by
  have hv : verify_image_quality b = ([], 50) := by
    unfold verify_image_quality get_image_quality
    simp [hq]
  have hscanq : ∀ e ∈ (run_scan b s).1, isQualityEv e = false := by
    rw [run_scan_events]
    rcases runScanTry_cases b with ⟨e0, dv, h⟩ | ⟨d3, h⟩
    · rw [h]
      intro e he
      simp only [List.mem_singleton] at he
      subst he
      rfl
    · rw [h]
      exact scanAfterOpen_noQuality b d3 (by rw [hv])
  refine ⟨hv, ?_, ?_, ?_⟩
  · have hws : ∀ e ∈ (ws_scan true storeOk b s).events, isQualityEv e = false := by
      simp only [ws_scan, if_true]
      cases htpl : (run_scan b s).2.1 with
      | none =>
          intro e he
          rcases List.mem_cons.mp he with h | h
          · subst h; rfl
          · rcases List.mem_append.mp h with h2 | h2
            · exact hscanq e h2
            · simp only [List.mem_singleton] at h2
              subst h2
              rfl
      | some tq =>
          cases storeOk with
          | true =>
              intro e he
              rcases List.mem_cons.mp he with h | h
              · subst h; rfl
              · rcases List.mem_append.mp h with h2 | h2
                · exact hscanq e h2
                · rcases List.mem_cons.mp h2 with h3 | h3
                  · subst h3; rfl
                  · simp only [List.mem_singleton] at h3
                    subst h3
                    rfl
          | false =>
              intro e he
              rcases List.mem_cons.mp he with h | h
              · subst h; rfl
              · rcases List.mem_append.mp h with h2 | h2
                · exact hscanq e h2
                · simp only [List.mem_singleton] at h2
                  subst h2
                  rfl
    refine List.countP_eq_zero.2 ?_
    intro a ha
    simp [hws a ha]
  · intro tpl hsdk hcr hin hop hcap htp hf hm
    have hrun : ∃ d3, runScanTry b = scanAfterOpen b d3 := by
      unfold runScanTry
      simp only [hsdk, if_true, devCreate, hcr, devInit, hin, devOpen, hop]
      by_cases hinfo : b.infoOk
      · simp only [hinfo, if_true]
        exact ⟨_, rfl⟩
      · simp only [hinfo, if_false]
        exact ⟨_, rfl⟩
    obtain ⟨d3, heq⟩ := hrun
    obtain ⟨tail, hevs, htail⟩ := scanAfterOpen_captured b d3 hcap
    have hct : create_template b (blink_led (configure_device b d3).2) = .ok tpl := by
      refine create_template_ok b _ tpl ?_ htp
      simp only [blink_led_mts, configure_mts_ok b d3 hf]
      exact hm
    obtain ⟨htl, _⟩ := htail tpl hct
    refine ws_mem_of_scan storeOk b s _ ?_
    rw [run_scan_events, heq, hevs, htl, hv]
    simp
  · intro b2 h2
    unfold get_image_quality
    simp [h2]

/-- Witness for C10 at the quality-exception behavior (plus the
SDK-status-code variant). -/
theorem claimC10_witness :
    verify_image_quality bQualExc = ([], 50) ∧
    (ws_scan true true bQualExc sessDemo).events.countP isQualityEv = 0 ∧
    Event.captureSuccessScan 50 ([1, 2, 3, 4] : List Nat).length ∈
      (ws_scan true true bQualExc sessDemo).events ∧
    get_image_quality { qualityOutcome := QualityOutcome.sdkErr } = Except.ok 0 := by
  have h := claimC10 true bQualExc sessDemo rfl
  exact ⟨h.1, h.2.1,
    h.2.2.1 [1, 2, 3, 4] rfl rfl rfl rfl rfl rfl rfl (by decide),
    h.2.2.2 { qualityOutcome := QualityOutcome.sdkErr } rfl⟩
